import Mathlib

/-!
Verification development for the tenant-api service.

The embedding covers the tenant data model, the tenant lifecycle HTTP
handlers (`tenantCreate`, `tenantList`, `tenantGet`, `tenantUpdate`,
`tenantDelete` from `pkg/api/v1/tenants.go`), the outward representation
(`v1Tenant`, `v1TenantSlice`), and the generated predicate combinators
(`And`, `Or`, `Not` of the `tenant` predicate package).

The repository operations (sqlboiler-generated `models` code) and the
request parsing/validation helpers are not part of the sources; they are
modelled from the specification, each with a doc comment saying so.
External failure modes (unexpected database errors, event-message
construction failure, publish failure) are injected through an explicit
oracle record so that the handlers' control flow can be analysed in all
branches.
-/

/-- Tenant row of the persistence layer (the `models.Tenant` struct):
`id`, `name`, optional `description`, optional `parent_tenant_id`,
`created_at`, `updated_at`, optional soft-deletion `deleted_at`.
Nullable SQL columns (`null.String`, `null.Time`) are modelled as `Option`;
timestamps are modelled as naturals. -/
structure Tenant where
  ID : String
  Name : String
  Description : Option String
  ParentTenantID : Option String
  CreatedAt : Nat
  UpdatedAt : Nat
  DeletedAt : Option Nat
deriving DecidableEq, Repr

/-- Persistence-store state: the ordered list of tenant rows (the order is
the repository's stable listing order), a counter for fresh id generation,
and the current clock used for `created_at` / `updated_at` / `deleted_at`. -/
structure DB where
  rows : List Tenant
  nextID : Nat
  now : Nat
deriving DecidableEq, Repr

/-- Error taxonomy of the repository layer: NotFound, ConstraintViolation
(referential-integrity failure), and an unexpected persistence failure. -/
inductive RepoError
  | notFound
  | constraintViolation
  | unexpected
deriving DecidableEq, Repr

/-- Failure oracle for the external collaborators: whether each persistence
call fails unexpectedly, whether event-message construction succeeds, and
whether the publish call succeeds. -/
structure Oracles where
  insertFail : Bool
  queryFail : Bool
  updateFail : Bool
  deleteFail : Bool
  msgOk : Bool
  publishOk : Bool
deriving DecidableEq, Repr

/-- URN for a tenant id, `pubsub.NewTenantURN`: `urn:infratographer:tenant:<id>`. -/
def NewTenantURN (id : String) : String :=
  "urn:infratographer:tenant:" ++ id

/-- Change-event message (`pubsub` tenant message): acting identity, the
affected resource URN, and additional URNs. -/
structure TenantMessage where
  actor : String
  resourceURN : String
  additionalURNs : List String
deriving DecidableEq, Repr

/-- Kind of a published lifecycle change event. -/
inductive EventKind
  | createdE
  | updatedE
  | deletedE
deriving DecidableEq, Repr

/-- One call submitted to the Event Publisher (`PublishCreate` /
`PublishUpdate` / `PublishDelete`): kind, topic, scope, and the message
(`none` when message construction failed and a nil message was passed on). -/
structure PublishCall where
  kind : EventKind
  topic : String
  scope : String
  msg : Option TenantMessage
deriving DecidableEq, Repr

/-- Outward representation of a tenant (the `tenant` struct rendered in
responses): `{id, name, parentTenantId?, createdAt, updatedAt, deletedAt?}`. -/
structure V1Tenant where
  ID : String
  Name : String
  ParentTenantID : Option String
  CreatedAt : Nat
  UpdatedAt : Nat
  DeletedAt : Option Nat
deriving DecidableEq, Repr

/-- `v1Tenant` from `pkg/api/v1/tenants.go`: copies `ID`, `Name`,
`CreatedAt`, `UpdatedAt` and takes the nullable `ParentTenantID` /
`DeletedAt` via `.Ptr()` (present exactly when the column is non-null). -/
def v1Tenant (t : Tenant) : V1Tenant :=
  { ID := t.ID
    Name := t.Name
    ParentTenantID := t.ParentTenantID
    CreatedAt := t.CreatedAt
    UpdatedAt := t.UpdatedAt
    DeletedAt := t.DeletedAt }

/-- `v1TenantSlice` from `pkg/api/v1/tenants.go`: element-wise `v1Tenant`
over the slice, preserving length and order. -/
def v1TenantSlice (ts : List Tenant) : List V1Tenant :=
  ts.map v1Tenant

/-- Fresh prefixed id assigned by the persistence layer on insert. -/
def freshID (db : DB) : String :=
  "tnntn-" ++ toString db.nextID

/-- Modelled from the spec: `insert(Tenant)` of the Tenant Repository (the
sqlboiler-generated `models.Tenant.Insert` is not in the sources). Assigns
a fresh id and `created_at`/`updated_at`, persists the row, and fails with
ConstraintViolation if `parent_tenant_id` is set but does not reference an
existing tenant (referential integrity enforced by the persistence layer).
An unexpected persistence failure is injected through `fail`. -/
def DB.insertTenant (db : DB) (fail : Bool) (name : String)
    (parent : Option String) : Except RepoError (DB × Tenant) :=
  if fail then .error .unexpected
  else
    let t : Tenant :=
      { ID := freshID db
        Name := name
        Description := none
        ParentTenantID := parent
        CreatedAt := db.now
        UpdatedAt := db.now
        DeletedAt := none }
    match parent with
    | some p =>
        if db.rows.any (fun r => r.ID == p) then
          .ok ({ rows := db.rows ++ [t], nextID := db.nextID + 1, now := db.now }, t)
        else
          .error .constraintViolation
    | none =>
        .ok ({ rows := db.rows ++ [t], nextID := db.nextID + 1, now := db.now }, t)

/-- Modelled from the spec: the single-row default query
(`models.Tenants(ID.EQ(id)).One`, generated code not in the sources).
`getByID` fails with NotFound when no row matches, including when the row
is soft-deleted — default queries exclude soft-deleted rows. -/
def DB.queryOne (db : DB) (fail : Bool) (id : String) : Except RepoError Tenant :=
  if fail then .error .unexpected
  else
    match db.rows.find? (fun r => r.ID == id && r.DeletedAt.isNone) with
    | some t => .ok t
    | none => .error .notFound

/-- Pagination parameters (`parsePagination` / `pagination.queryMods()` are
not in the sources). Modelled from the spec: offset/limit over the
repository's stable row order, so repeated calls with no intervening
writes return identical pages. -/
structure Pagination where
  limit : Nat
  offset : Nat
deriving DecidableEq, Repr

/-- Modelled from the spec: the filtered, paginated list query
(`models.Tenants(mods...).All`, generated code not in the sources).
Default listings exclude soft-deleted rows; the parent filter is either
`parent_tenant_id = P` or `parent_tenant_id IS NULL`; rows come back in
the repository's stable order with offset/limit applied. -/
def DB.queryAll (db : DB) (fail : Bool) (parent : Option String)
    (pg : Pagination) : Except RepoError (List Tenant) :=
  if fail then .error .unexpected
  else
    .ok (((db.rows.filter
      (fun r => r.DeletedAt.isNone && r.ParentTenantID == parent)).drop
        pg.offset).take pg.limit)

/-- Modelled from the spec: `update` of the Tenant Repository
(`models.Tenant.Update`, generated code not in the sources): writes the
in-memory row back by primary key and refreshes `updated_at` (sqlboiler
also sets the refreshed `updated_at` on the passed struct, which the
handler then renders). -/
def DB.updateRow (db : DB) (fail : Bool) (t : Tenant) :
    Except RepoError (DB × Tenant) :=
  if fail then .error .unexpected
  else
    let updated := { t with UpdatedAt := db.now }
    .ok ({ db with
            rows := db.rows.map (fun r => if r.ID == t.ID then updated else r) },
         updated)

/-- Modelled from the spec: `softDelete` of the Tenant Repository
(`models.Tenant.Delete` with `hardDelete = false`, generated code not in
the sources): sets `deleted_at` on the row, does not physically remove it. -/
def DB.softDeleteRow (db : DB) (fail : Bool) (t : Tenant) :
    Except RepoError DB :=
  if fail then .error .unexpected
  else
    .ok { db with
            rows := db.rows.map
              (fun r => if r.ID == t.ID then { r with DeletedAt := some db.now } else r) }

/-- Result of `parseUUID(c, "id")`: a parsed id, `ErrUUIDNotFound` (no id
path parameter), or a malformed id. -/
inductive PathID
  | present (id : String)
  | absent
  | malformed
deriving DecidableEq, Repr

/-- Create request body (`createTenantRequest`): `{name: string}`. -/
structure CreateTenantRequest where
  Name : String
deriving DecidableEq, Repr

/-- Modelled from the spec: `createTenantRequest.validate` (not in the
sources) fails with ValidationError on missing required fields, e.g. an
empty `name`. -/
def CreateTenantRequest.validate (req : CreateTenantRequest) : Bool :=
  !(req.Name == "")

/-- Update request body (`updateTenantRequest`): an optional new `name`. -/
structure UpdateTenantRequest where
  Name : Option String
deriving DecidableEq, Repr

/-- Modelled from the spec: `updateTenantRequest.validate` (not in the
sources) rejects an empty `name` when one is supplied. -/
def UpdateTenantRequest.validate (req : UpdateTenantRequest) : Bool :=
  match req.Name with
  | some n => !(n == "")
  | none => true

/-- Outcome a handler renders to the transport: the v1 responses
(201 created, 200 get/list, 400, 404, 500), the bare `nil` success of the
delete handler, and the delete handler's raw-error return (the error value
handed back to the framework instead of a v1 response). -/
inductive ApiResult
  | createdR (t : V1Tenant)
  | getR (t : V1Tenant)
  | listR (ts : List V1Tenant)
  | badRequest
  | notFoundR
  | internalError
  | noContent
  | rawError (e : RepoError)
deriving DecidableEq, Repr

/-- Observable outcome of one handler invocation: the rendered response,
the resulting store state, and the calls submitted to the Event Publisher. -/
structure HandlerOut where
  resp : ApiResult
  db : DB
  published : List PublishCall
deriving DecidableEq, Repr

/-- `tenantCreate` from `pkg/api/v1/tenants.go`: parse optional parent id
(400 on malformed), bind (400 on failure), validate (400 on failure), set
`ParentTenantID` and the parent URN when a parent id was supplied, insert
(500 on any insert error, nothing published), then build the creation
message (failure only logged, a nil message is passed on) and publish to
`("tenants", "global")` (failure only logged), and return 201 with the
created tenant. -/
def tenantCreate (db : DB) (o : Oracles) (path : PathID)
    (body : Option CreateTenantRequest) (actor : String) : HandlerOut :=
  match path with
  | .malformed => ⟨.badRequest, db, []⟩
  | _ =>
    match body with
    | none => ⟨.badRequest, db, []⟩
    | some req =>
      if !req.validate then ⟨.badRequest, db, []⟩
      else
        let parent : Option String :=
          match path with
          | .present id => some id
          | _ => none
        let additionalURNs : List String :=
          match path with
          | .present id => [NewTenantURN id]
          | _ => []
        match db.insertTenant o.insertFail req.Name parent with
        | .error _ => ⟨.internalError, db, []⟩
        | .ok (db1, t) =>
          let msg : Option TenantMessage :=
            if o.msgOk then
              some { actor := actor
                     resourceURN := NewTenantURN t.ID
                     additionalURNs := additionalURNs }
            else none
          ⟨.createdR (v1Tenant t), db1,
            [{ kind := .createdE, topic := "tenants", scope := "global", msg := msg }]⟩

/-- `tenantList` from `pkg/api/v1/tenants.go`: filter by
`parent_tenant_id = id` when an id is in the path, by
`parent_tenant_id IS NULL` when there is none, 400 on a malformed id;
apply pagination; 500 on query failure; else 200 with the page. -/
def tenantList (db : DB) (o : Oracles) (path : PathID)
    (pg : Pagination) : HandlerOut :=
  match path with
  | .malformed => ⟨.badRequest, db, []⟩
  | .present id =>
    match db.queryAll o.queryFail (some id) pg with
    | .error _ => ⟨.internalError, db, []⟩
    | .ok ts => ⟨.listR (v1TenantSlice ts), db, []⟩
  | .absent =>
    match db.queryAll o.queryFail none pg with
    | .error _ => ⟨.internalError, db, []⟩
    | .ok ts => ⟨.listR (v1TenantSlice ts), db, []⟩

/-- `tenantGet` from `pkg/api/v1/tenants.go`: 400 when the id is missing
or malformed; single-row query by id — 404 on no row, 500 on unexpected
query failure, else 200 with the tenant. -/
def tenantGet (db : DB) (o : Oracles) (path : PathID) : HandlerOut :=
  match path with
  | .present id =>
    match db.queryOne o.queryFail id with
    | .error .notFound => ⟨.notFoundR, db, []⟩
    | .error _ => ⟨.internalError, db, []⟩
    | .ok t => ⟨.getR (v1Tenant t), db, []⟩
  | _ => ⟨.badRequest, db, []⟩

/-- `tenantUpdate` from `pkg/api/v1/tenants.go`: 400 on missing/malformed
id, bind failure or validation failure; fetch by id (404 on no row, 500 on
unexpected failure); overwrite `Name` when the payload carries one; update
the row (500 on failure, nothing published); then build the update message
(failure only logged) and publish (failure only logged), and return 200
with the updated tenant. -/
def tenantUpdate (db : DB) (o : Oracles) (path : PathID)
    (body : Option UpdateTenantRequest) (actor : String) : HandlerOut :=
  match path with
  | .present id =>
    match body with
    | none => ⟨.badRequest, db, []⟩
    | some payload =>
      if !payload.validate then ⟨.badRequest, db, []⟩
      else
        match db.queryOne o.queryFail id with
        | .error .notFound => ⟨.notFoundR, db, []⟩
        | .error _ => ⟨.internalError, db, []⟩
        | .ok t =>
          let t1 :=
            match payload.Name with
            | some n => { t with Name := n }
            | none => t
          match db.updateRow o.updateFail t1 with
          | .error _ => ⟨.internalError, db, []⟩
          | .ok (db1, t2) =>
            let msg : Option TenantMessage :=
              if o.msgOk then
                some { actor := actor
                       resourceURN := NewTenantURN t2.ID
                       additionalURNs := [] }
              else none
            ⟨.getR (v1Tenant t2), db1,
              [{ kind := .updatedE, topic := "tenants", scope := "global", msg := msg }]⟩
  | _ => ⟨.badRequest, db, []⟩

/-- `tenantDelete` from `pkg/api/v1/tenants.go`: 400 on missing/malformed
id; fetch by id (404 on no row, 500 on unexpected failure); soft-delete
the row — on failure the handler logs and returns the raw error (not the
v1 500 response), publishing nothing; on success it builds the delete
message (failure only logged) and publishes (failure only logged), and
returns `nil`. -/
def tenantDelete (db : DB) (o : Oracles) (path : PathID)
    (actor : String) : HandlerOut :=
  match path with
  | .present id =>
    match db.queryOne o.queryFail id with
    | .error .notFound => ⟨.notFoundR, db, []⟩
    | .error _ => ⟨.internalError, db, []⟩
    | .ok t =>
      match db.softDeleteRow o.deleteFail t with
      | .error e => ⟨.rawError e, db, []⟩
      | .ok db1 =>
        let msg : Option TenantMessage :=
          if o.msgOk then
            some { actor := actor
                   resourceURN := NewTenantURN t.ID
                   additionalURNs := [] }
          else none
        ⟨.noContent, db1,
          [{ kind := .deletedE, topic := "tenants", scope := "global", msg := msg }]⟩
  | _ => ⟨.badRequest, db, []⟩

/-- Modelled from the spec: a `predicate.Tenant` value denotes the filter
it imposes on tenant rows (the design note's tagged filter-expression
reading); the underlying `sql.Selector` machinery is not in the sources,
so predicates are embedded by this denotation. -/
abbrev TenantPred := Tenant → Bool

namespace tenant

/-- `And` from the generated `tenant` predicate package: groups the
predicates with the AND operator between them (the loop over `predicates`
applied to a fresh cloned selector). -/
def And (predicates : List TenantPred) : TenantPred :=
  fun t => predicates.foldl (fun acc p => acc && p t) true

/-- `Or` from the generated `tenant` predicate package: groups the
predicates with the OR operator between them (the `s1.Or()` disjunction
join fires only from the second predicate on). With zero predicates the
loop body never runs and the nil selector predicate is attached — the
same code path as an empty `And` — so no constraint is imposed and every
row matches. -/
def Or (predicates : List TenantPred) : TenantPred :=
  fun t =>
    match predicates with
    | [] => true
    | p :: ps => ps.foldl (fun acc q => acc || q t) (p t)

/-- `Not` from the generated `tenant` predicate package: applies the not
operator on the given predicate. -/
def Not (p : TenantPred) : TenantPred :=
  fun t => !(p t)

end tenant

/-- Concrete store fixture: one live root tenant `tnntn-0`. -/
def sampleParent : Tenant :=
  ⟨"tnntn-0", "acme", none, none, 1, 1, none⟩

/-- Concrete store fixture holding `sampleParent`, clock at 5. -/
def sampleDB : DB :=
  ⟨[sampleParent], 1, 5⟩

/-- Oracle with no injected failures. -/
def oracleOK : Oracles :=
  ⟨false, false, false, false, true, true⟩

theorem tenant_and_foldl (l : List TenantPred) (t : Tenant) (b : Bool) :
    l.foldl (fun acc p => acc && p t) b = (b && l.all (fun p => p t)) := by
  induction l generalizing b with
  | nil => simp
  | cons p l ih => simp [List.foldl_cons, List.all_cons, ih, Bool.and_assoc]

theorem tenant_or_foldl (l : List TenantPred) (t : Tenant) (b : Bool) :
    l.foldl (fun acc p => acc || p t) b = (b || l.any (fun p => p t)) := by
  induction l generalizing b with
  | nil => simp
  | cons p l ih => simp [List.foldl_cons, List.any_cons, ih, Bool.or_assoc]

theorem tenant_and_denote (l : List TenantPred) (t : Tenant) :
    tenant.And l t = l.all (fun p => p t) := by
  simp [tenant.And, tenant_and_foldl]

theorem tenant_or_denote (p : TenantPred) (l : List TenantPred) (t : Tenant) :
    tenant.Or (p :: l) t = (p :: l).any (fun q => q t) := by
  simp [tenant.Or, tenant_or_foldl]

/-- C8: the logical combinators `And`, `Or`, `Not` over tenant predicates
compose associatively — `And [p, And [q, r]]` and `And [And [p, q], r]`
agree on every tenant and hence filter any row list identically, and
likewise for `Or`; as pure values the combinators leave their input
predicates untouched and build a new predicate. -/
theorem predicate_combinators_associative (p q r : TenantPred) (ts : List Tenant) :
    (∀ t : Tenant, tenant.And [p, tenant.And [q, r]] t = tenant.And [tenant.And [p, q], r] t)
    ∧ ts.filter (tenant.And [p, tenant.And [q, r]])
        = ts.filter (tenant.And [tenant.And [p, q], r])
    ∧ (∀ t : Tenant, tenant.Or [p, tenant.Or [q, r]] t = tenant.Or [tenant.Or [p, q], r] t)
    ∧ ts.filter (tenant.Or [p, tenant.Or [q, r]])
        = ts.filter (tenant.Or [tenant.Or [p, q], r]) := by
  have hand : ∀ t : Tenant,
      tenant.And [p, tenant.And [q, r]] t = tenant.And [tenant.And [p, q], r] t := by
    intro t
    simp [tenant_and_denote, Bool.and_assoc]
  have hor : ∀ t : Tenant,
      tenant.Or [p, tenant.Or [q, r]] t = tenant.Or [tenant.Or [p, q], r] t := by
    intro t
    simp [tenant_or_denote, Bool.or_assoc]
  refine ⟨hand, ?_, hor, ?_⟩
  · exact List.filter_congr fun t _ => hand t
  · exact List.filter_congr fun t _ => hor t

/-- C9 counterexample: an empty `Or` does not behave as a filter matching
no tenant — on the sample row it evaluates to `true` and filtering a
singleton list keeps the row, because the zero-predicate loop attaches
the nil selector predicate exactly as an empty `And` does. -/
theorem predicate_empty_or_counterexample :
    tenant.Or [] sampleParent = true
    ∧ tenant.Or [] sampleParent ≠ false
    ∧ [sampleParent].filter (tenant.Or []) = [sampleParent] := by
  decide

/-- C9 (amended): an empty `And` behaves as the filter matching every
tenant, and an empty `Or` behaves the same way — both attach the nil
selector predicate, imposing no constraint — so neither empty combinator
excludes any row. -/
theorem predicate_empty_combinators (t : Tenant) (ts : List Tenant) :
    tenant.And [] t = true
    ∧ tenant.Or [] t = true
    ∧ ts.filter (tenant.And []) = ts
    ∧ ts.filter (tenant.Or []) = ts := by
  refine ⟨rfl, rfl, ?_, ?_⟩
  · simp [tenant.And]
  · simp [tenant.Or]

/-- C10: `v1Tenant` copies `id`, `name`, `createdAt`, `updatedAt` verbatim
and carries `parentTenantId` / `deletedAt` exactly when the nullable model
fields are non-null, and `v1TenantSlice` preserves length and order,
mapping element `i` to `v1Tenant` of element `i`. -/
theorem v1Tenant_representation (t : Tenant) (ts : List Tenant) (i : Nat) :
    (v1Tenant t).ID = t.ID
    ∧ (v1Tenant t).Name = t.Name
    ∧ (v1Tenant t).CreatedAt = t.CreatedAt
    ∧ (v1Tenant t).UpdatedAt = t.UpdatedAt
    ∧ (v1Tenant t).ParentTenantID = t.ParentTenantID
    ∧ (v1Tenant t).DeletedAt = t.DeletedAt
    ∧ ((v1Tenant t).ParentTenantID).isSome = t.ParentTenantID.isSome
    ∧ ((v1Tenant t).DeletedAt).isSome = t.DeletedAt.isSome
    ∧ (v1TenantSlice ts).length = ts.length
    ∧ (v1TenantSlice ts)[i]? = ts[i]?.map v1Tenant := by
  simp [v1Tenant, v1TenantSlice]

/-- C2: a valid create with a parent id in the path persists the tenant
with `parentTenantId` equal to that id and publishes a creation event
whose additional URNs reference the parent; a valid create with no parent
id persists a root tenant (`parentTenantId` absent) and publishes a
creation event with no additional URNs. -/
theorem tenantCreate_parent_linkage (db : DB) (o : Oracles)
    (pid name actor : String)
    (hins : o.insertFail = false) (hmsg : o.msgOk = true)
    (hname : (name == "") = false)
    (hpar : db.rows.any (fun r => r.ID == pid) = true) :
    tenantCreate db o (.present pid) (some ⟨name⟩) actor
      = ⟨.createdR ⟨freshID db, name, some pid, db.now, db.now, none⟩,
         ⟨db.rows ++ [⟨freshID db, name, none, some pid, db.now, db.now, none⟩],
          db.nextID + 1, db.now⟩,
         [⟨.createdE, "tenants", "global",
           some ⟨actor, NewTenantURN (freshID db), [NewTenantURN pid]⟩⟩]⟩
    ∧ tenantCreate db o .absent (some ⟨name⟩) actor
      = ⟨.createdR ⟨freshID db, name, none, db.now, db.now, none⟩,
         ⟨db.rows ++ [⟨freshID db, name, none, none, db.now, db.now, none⟩],
          db.nextID + 1, db.now⟩,
         [⟨.createdE, "tenants", "global",
           some ⟨actor, NewTenantURN (freshID db), []⟩⟩]⟩ := by
  constructor <;>
    simp [tenantCreate, DB.insertTenant, CreateTenantRequest.validate,
      v1Tenant, hins, hmsg, hname, hpar]

/-- C2 witness: creating `east` under the live parent `tnntn-0` of the
sample store yields the child representation and the parent URN in the
event; creating with no parent yields a root tenant and no extra URNs. -/
theorem tenantCreate_parent_linkage_witness :
    (oracleOK.insertFail = false ∧ oracleOK.msgOk = true
      ∧ (("east" == "") = false)
      ∧ sampleDB.rows.any (fun r => r.ID == "tnntn-0") = true)
    ∧ (tenantCreate sampleDB oracleOK (.present "tnntn-0") (some ⟨"east"⟩) "alice").resp
        = .createdR ⟨"tnntn-1", "east", some "tnntn-0", 5, 5, none⟩
    ∧ (tenantCreate sampleDB oracleOK .absent (some ⟨"east"⟩) "alice").resp
        = .createdR ⟨"tnntn-1", "east", none, 5, 5, none⟩ := by
  have h := tenantCreate_parent_linkage sampleDB oracleOK "tnntn-0" "east" "alice"
    rfl rfl (by decide) (by decide)
  refine ⟨by decide, ?_, ?_⟩
  · rw [h.1]
    decide
  · rw [h.2]
    decide

/-- C3 counterexample: creating under the absent parent id `tnntn-404`
persists nothing, but the handler surfaces the failure as the generic 500
internal-server-error response, not as a 400 (and it has no 409 path at
all) — the claim's "surfaced as 400/409" is false on the code. -/
theorem tenantCreate_bad_parent_counterexample :
    (tenantCreate sampleDB oracleOK (.present "tnntn-404") (some ⟨"acme"⟩) "alice").resp
      = .internalError
    ∧ (tenantCreate sampleDB oracleOK (.present "tnntn-404") (some ⟨"acme"⟩) "alice").resp
      ≠ .badRequest
    ∧ (tenantCreate sampleDB oracleOK (.present "tnntn-404") (some ⟨"acme"⟩) "alice").db
      = sampleDB
    ∧ (tenantCreate sampleDB oracleOK (.present "tnntn-404") (some ⟨"acme"⟩) "alice").published
      = [] := by
  decide

/-- C3 amended: a create naming a parent id that references no existing
tenant fails — the repository reports ConstraintViolation, no tenant row
is persisted and no event is published — and the handler surfaces the
failure to the caller as the generic 500 internal-server-error response. -/
theorem tenantCreate_bad_parent_maps_to_internal_error (db : DB) (o : Oracles)
    (pid name actor : String)
    (hins : o.insertFail = false)
    (hname : (name == "") = false)
    (hmiss : db.rows.any (fun r => r.ID == pid) = false) :
    db.insertTenant o.insertFail name (some pid) = .error .constraintViolation
    ∧ tenantCreate db o (.present pid) (some ⟨name⟩) actor
        = ⟨.internalError, db, []⟩ := by
  have hrepo : db.insertTenant o.insertFail name (some pid)
      = .error .constraintViolation := by
    simp [DB.insertTenant, hins, hmiss]
  refine ⟨hrepo, ?_⟩
  simp [tenantCreate, CreateTenantRequest.validate, hname, hrepo]

/-- C3 amended witness: the concrete bad-parent create on the sample store
hits the ConstraintViolation branch and renders the 500 response. -/
theorem tenantCreate_bad_parent_maps_to_internal_error_witness :
    (oracleOK.insertFail = false
      ∧ (("acme" == "") = false)
      ∧ sampleDB.rows.any (fun r => r.ID == "tnntn-404") = false)
    ∧ sampleDB.insertTenant oracleOK.insertFail "acme" (some "tnntn-404")
        = .error .constraintViolation
    ∧ tenantCreate sampleDB oracleOK (.present "tnntn-404") (some ⟨"acme"⟩) "alice"
        = ⟨.internalError, sampleDB, []⟩ :=
  ⟨by decide,
   tenantCreate_bad_parent_maps_to_internal_error sampleDB oracleOK
     "tnntn-404" "acme" "alice" rfl (by decide) (by decide)⟩

/-- C4: with no parent id the list endpoint returns exactly the live root
tenants (every returned representation has `parentTenantId` null, so no
tenant with a parent set is ever included); with parent id `P` it returns
exactly the live tenants whose `parentTenantId` equals `P`, in the
repository's stable order (the handler is a pure function of the store, so
repeated calls with no intervening writes return the identical page). -/
theorem tenantList_root_and_children (db : DB) (o : Oracles) (pid : String)
    (pg : Pagination)
    (hq : o.queryFail = false) (hoff : pg.offset = 0)
    (hlim : db.rows.length ≤ pg.limit) :
    (tenantList db o .absent pg).resp
      = .listR (v1TenantSlice (db.rows.filter
          (fun r => r.DeletedAt.isNone && r.ParentTenantID == none)))
    ∧ (tenantList db o (.present pid) pg).resp
      = .listR (v1TenantSlice (db.rows.filter
          (fun r => r.DeletedAt.isNone && r.ParentTenantID == some pid)))
    ∧ (∀ v ∈ v1TenantSlice (db.rows.filter
          (fun r => r.DeletedAt.isNone && r.ParentTenantID == none)),
        v.ParentTenantID = none)
    ∧ (∀ t : Tenant,
        t ∈ db.rows.filter (fun r => r.DeletedAt.isNone && r.ParentTenantID == some pid)
          ↔ t ∈ db.rows ∧ t.DeletedAt = none ∧ t.ParentTenantID = some pid) := by
  have page : ∀ f : Tenant → Bool,
      ((db.rows.filter f).drop pg.offset).take pg.limit = db.rows.filter f := by
    intro f
    rw [hoff, List.drop_zero]
    exact List.take_of_length_le (le_trans (db.rows.length_filter_le f) hlim)
  refine ⟨?_, ?_, ?_, ?_⟩
  · simp [tenantList, DB.queryAll, hq, page]
  · simp [tenantList, DB.queryAll, hq, page]
  · intro v hv
    rcases List.mem_map.mp hv with ⟨t, htm, rfl⟩
    have hcond := (List.mem_filter.mp htm).2
    simp [Bool.and_eq_true, Option.isNone_iff_eq_none] at hcond
    simp [v1Tenant, hcond.2]
  · intro t
    simp [List.mem_filter, Bool.and_eq_true, Option.isNone_iff_eq_none, and_assoc]

/-- C4 witness: on the sample store (one live root) the root listing
returns exactly that root and the child listing under it is empty. -/
theorem tenantList_root_and_children_witness :
    (oracleOK.queryFail = false ∧ (10 : Nat) ≥ sampleDB.rows.length)
    ∧ (tenantList sampleDB oracleOK .absent ⟨10, 0⟩).resp
        = .listR [⟨"tnntn-0", "acme", none, 1, 1, none⟩]
    ∧ (tenantList sampleDB oracleOK (.present "tnntn-0") ⟨10, 0⟩).resp
        = .listR [] := by
  have h := tenantList_root_and_children sampleDB oracleOK "tnntn-0" ⟨10, 0⟩
    rfl rfl (by decide)
  refine ⟨by decide, ?_, ?_⟩
  · rw [h.1]
    decide
  · rw [h.2.1]
    decide

/-- C5: a successful name update of tenant `T` renders `T` with the new
name and a refreshed, strictly later `updatedAt`, and changes nothing else:
in the store, `T`'s row differs only in `Name` and `UpdatedAt` (so `id`,
`createdAt`, `parentTenantId`, `description`, `deletedAt` are unchanged)
and every other row is untouched. -/
theorem tenantUpdate_name_frame (db : DB) (o : Oracles)
    (id newName actor : String) (t : Tenant)
    (hq : o.queryFail = false) (hu : o.updateFail = false)
    (hname : (newName == "") = false)
    (ht : db.rows.find? (fun r => r.ID == id && r.DeletedAt.isNone) = some t)
    (hlater : t.UpdatedAt < db.now) :
    (tenantUpdate db o (.present id) (some ⟨some newName⟩) actor).resp
      = .getR ⟨t.ID, newName, t.ParentTenantID, t.CreatedAt, db.now, t.DeletedAt⟩
    ∧ (tenantUpdate db o (.present id) (some ⟨some newName⟩) actor).db.rows
      = db.rows.map (fun r =>
          if r.ID == t.ID then { t with Name := newName, UpdatedAt := db.now } else r)
    ∧ t.UpdatedAt < db.now := by
  refine ⟨?_, ?_, hlater⟩ <;>
    simp [tenantUpdate, UpdateTenantRequest.validate, hname, DB.queryOne, hq, ht,
      DB.updateRow, hu, v1Tenant]

/-- C5 witness: renaming the sample root at clock 5 returns the row with
the new name, `updatedAt` 5 (strictly after the stored 1), and all other
fields as before. -/
theorem tenantUpdate_name_frame_witness :
    (oracleOK.queryFail = false ∧ oracleOK.updateFail = false
      ∧ (("acme2" == "") = false)
      ∧ sampleDB.rows.find? (fun r => r.ID == "tnntn-0" && r.DeletedAt.isNone)
          = some sampleParent
      ∧ sampleParent.UpdatedAt < sampleDB.now)
    ∧ (tenantUpdate sampleDB oracleOK (.present "tnntn-0") (some ⟨some "acme2"⟩) "bob").resp
        = .getR ⟨"tnntn-0", "acme2", none, 1, 5, none⟩ := by
  have h := tenantUpdate_name_frame sampleDB oracleOK "tnntn-0" "acme2" "bob"
    sampleParent rfl rfl (by decide) (by decide) (by decide)
  refine ⟨by decide, ?_⟩
  rw [h.1]
  decide

theorem find_after_soft_delete (rows : List Tenant) (id : String) (t : Tenant)
    (n : Nat) (hid : t.ID = id) :
    (rows.map (fun r =>
        if r.ID == t.ID then { r with DeletedAt := some n } else r)).find?
      (fun r => r.ID == id && r.DeletedAt.isNone) = none := by
  rw [List.find?_eq_none]
  intro x hx
  rcases List.mem_map.mp hx with ⟨r, hr, hfx⟩
  subst hid
  by_cases h : r.ID = t.ID
  · rw [← hfx]
    simp [h]
  · rw [← hfx]
    simp [h]

theorem tenantGet_no_live_row (db : DB) (o : Oracles) (id : String)
    (hq : o.queryFail = false)
    (h : db.rows.find? (fun r => r.ID == id && r.DeletedAt.isNone) = none) :
    (tenantGet db o (.present id)).resp = .notFoundR := by
  simp [tenantGet, DB.queryOne, hq, h]

theorem tenantDelete_no_live_row (db : DB) (o : Oracles) (id actor : String)
    (hq : o.queryFail = false)
    (h : db.rows.find? (fun r => r.ID == id && r.DeletedAt.isNone) = none) :
    (tenantDelete db o (.present id) actor).resp = .notFoundR
    ∧ (tenantDelete db o (.present id) actor).db = db := by
  constructor <;> simp [tenantDelete, DB.queryOne, hq, h]

/-- C6: delete soft-deletes — a successful delete of tenant `T` marks
`T`'s row with `deletedAt` and keeps the row in the store (same row
count); a subsequent get of `T`'s id hits NotFound (404), as does a second
delete; and deleting an id for which no live row exists (absent or already
soft-deleted) fails with NotFound and leaves the store unchanged. -/
theorem tenantDelete_soft_delete (db : DB) (o : Oracles) (id actor : String)
    (t : Tenant) (db2 : DB) (id2 : String)
    (hq : o.queryFail = false) (hd : o.deleteFail = false)
    (ht : db.rows.find? (fun r => r.ID == id && r.DeletedAt.isNone) = some t) :
    (tenantDelete db o (.present id) actor).resp = .noContent
    ∧ (tenantDelete db o (.present id) actor).db.rows
        = db.rows.map (fun r =>
            if r.ID == t.ID then { r with DeletedAt := some db.now } else r)
    ∧ ((tenantDelete db o (.present id) actor).db.rows).length = db.rows.length
    ∧ (tenantGet (tenantDelete db o (.present id) actor).db o (.present id)).resp
        = .notFoundR
    ∧ (tenantDelete (tenantDelete db o (.present id) actor).db o (.present id) actor).resp
        = .notFoundR
    ∧ (db2.rows.find? (fun r => r.ID == id2 && r.DeletedAt.isNone) = none →
        (tenantDelete db2 o (.present id2) actor).resp = .notFoundR
        ∧ (tenantDelete db2 o (.present id2) actor).db = db2) := by
  have hid : t.ID = id := by
    have hp := List.find?_some ht
    simp [Bool.and_eq_true] at hp
    exact hp.1
  have hdb : (tenantDelete db o (.present id) actor).db
      = ⟨db.rows.map (fun r =>
          if r.ID == t.ID then { r with DeletedAt := some db.now } else r),
         db.nextID, db.now⟩ := by
    simp [tenantDelete, DB.queryOne, hq, ht, DB.softDeleteRow, hd]
  refine ⟨?_, ?_, ?_, ?_, ?_, ?_⟩
  · simp [tenantDelete, DB.queryOne, hq, ht, DB.softDeleteRow, hd]
  · simp [tenantDelete, DB.queryOne, hq, ht, DB.softDeleteRow, hd]
  · simp [tenantDelete, DB.queryOne, hq, ht, DB.softDeleteRow, hd]
  · rw [hdb]
    exact tenantGet_no_live_row _ o id hq
      (find_after_soft_delete db.rows id t db.now hid)
  · rw [hdb]
    exact (tenantDelete_no_live_row _ o id actor hq
      (find_after_soft_delete db.rows id t db.now hid)).1
  · intro hmiss
    exact tenantDelete_no_live_row db2 o id2 actor hq hmiss

/-- C6 witness: deleting the sample root succeeds, keeps the row count at
one, and a following get and a second delete both return 404; deleting the
absent id `tnntn-404` returns 404 and leaves the store unchanged. -/
theorem tenantDelete_soft_delete_witness :
    (oracleOK.queryFail = false ∧ oracleOK.deleteFail = false
      ∧ sampleDB.rows.find? (fun r => r.ID == "tnntn-0" && r.DeletedAt.isNone)
          = some sampleParent
      ∧ sampleDB.rows.find? (fun r => r.ID == "tnntn-404" && r.DeletedAt.isNone)
          = none)
    ∧ (tenantDelete sampleDB oracleOK (.present "tnntn-0") "bob").resp = .noContent
    ∧ ((tenantDelete sampleDB oracleOK (.present "tnntn-0") "bob").db.rows).length
        = sampleDB.rows.length
    ∧ (tenantGet (tenantDelete sampleDB oracleOK (.present "tnntn-0") "bob").db
        oracleOK (.present "tnntn-0")).resp = .notFoundR
    ∧ (tenantDelete sampleDB oracleOK (.present "tnntn-404") "bob").resp
        = .notFoundR := by
  have h := tenantDelete_soft_delete sampleDB oracleOK "tnntn-0" "bob"
    sampleParent sampleDB "tnntn-404" rfl rfl (by decide)
  exact ⟨by decide, h.1, h.2.2.1, h.2.2.2.1, (h.2.2.2.2.2 (by decide)).1⟩

theorem tenantCreate_publish_only_on_success (db : DB) (o : Oracles)
    (path : PathID) (body : Option CreateTenantRequest) (actor : String) :
    (tenantCreate db o path body actor).published ≠ [] →
    ∃ v, (tenantCreate db o path body actor).resp = .createdR v := by
  cases path with
  | malformed => simp [tenantCreate]
  | present id =>
    cases body with
    | none => simp [tenantCreate]
    | some req =>
      cases hv : req.validate with
      | false => simp [tenantCreate, hv]
      | true =>
        rcases hins : db.insertTenant o.insertFail req.Name (some id) with e | ⟨db1, t⟩ <;>
          simp [tenantCreate, hv, hins]
  | absent =>
    cases body with
    | none => simp [tenantCreate]
    | some req =>
      cases hv : req.validate with
      | false => simp [tenantCreate, hv]
      | true =>
        rcases hins : db.insertTenant o.insertFail req.Name none with e | ⟨db1, t⟩ <;>
          simp [tenantCreate, hv, hins]

theorem tenantUpdate_publish_only_on_success (db : DB) (o : Oracles)
    (path : PathID) (body : Option UpdateTenantRequest) (actor : String) :
    (tenantUpdate db o path body actor).published ≠ [] →
    ∃ v, (tenantUpdate db o path body actor).resp = .getR v := by
  cases path with
  | malformed => simp [tenantUpdate]
  | absent => simp [tenantUpdate]
  | present id =>
    cases body with
    | none => simp [tenantUpdate]
    | some payload =>
      cases hv : payload.validate with
      | false => simp [tenantUpdate, hv]
      | true =>
        rcases hone : db.queryOne o.queryFail id with e | t
        · cases e <;> simp [tenantUpdate, hv, hone]
        · rcases hup : db.updateRow o.updateFail
              (match payload.Name with
               | some n => { t with Name := n }
               | none => t) with e | ⟨db1, t2⟩ <;>
            simp [tenantUpdate, hv, hone, hup]

theorem tenantDelete_publish_only_on_success (db : DB) (o : Oracles)
    (path : PathID) (actor : String) :
    (tenantDelete db o path actor).published ≠ [] →
    (tenantDelete db o path actor).resp = .noContent := by
  cases path with
  | malformed => simp [tenantDelete]
  | absent => simp [tenantDelete]
  | present id =>
    rcases hone : db.queryOne o.queryFail id with e | t
    · cases e <;> simp [tenantDelete, hone]
    · rcases hdel : db.softDeleteRow o.deleteFail t with e | db1 <;>
        simp [tenantDelete, hone, hdel]

theorem tenantCreate_oracle_indep (db : DB) (o : Oracles) (x y : Bool)
    (path : PathID) (body : Option CreateTenantRequest) (actor : String) :
    (tenantCreate db { o with msgOk := x, publishOk := y } path body actor).resp
      = (tenantCreate db o path body actor).resp
    ∧ (tenantCreate db { o with msgOk := x, publishOk := y } path body actor).db
      = (tenantCreate db o path body actor).db := by
  cases path with
  | malformed => exact ⟨rfl, rfl⟩
  | present id =>
    cases body with
    | none => exact ⟨rfl, rfl⟩
    | some req =>
      cases hv : req.validate with
      | false => simp [tenantCreate, hv]
      | true =>
        rcases hins : db.insertTenant o.insertFail req.Name (some id) with e | ⟨db1, t⟩ <;>
          simp [tenantCreate, hv, hins]
  | absent =>
    cases body with
    | none => exact ⟨rfl, rfl⟩
    | some req =>
      cases hv : req.validate with
      | false => simp [tenantCreate, hv]
      | true =>
        rcases hins : db.insertTenant o.insertFail req.Name none with e | ⟨db1, t⟩ <;>
          simp [tenantCreate, hv, hins]

theorem tenantUpdate_oracle_indep (db : DB) (o : Oracles) (x y : Bool)
    (path : PathID) (body : Option UpdateTenantRequest) (actor : String) :
    (tenantUpdate db { o with msgOk := x, publishOk := y } path body actor).resp
      = (tenantUpdate db o path body actor).resp
    ∧ (tenantUpdate db { o with msgOk := x, publishOk := y } path body actor).db
      = (tenantUpdate db o path body actor).db := by
  cases path with
  | malformed => exact ⟨rfl, rfl⟩
  | absent => exact ⟨rfl, rfl⟩
  | present id =>
    cases body with
    | none => exact ⟨rfl, rfl⟩
    | some payload =>
      cases hv : payload.validate with
      | false => simp [tenantUpdate, hv]
      | true =>
        rcases hone : db.queryOne o.queryFail id with e | t
        · cases e <;> simp [tenantUpdate, hv, hone]
        · rcases hup : db.updateRow o.updateFail
              (match payload.Name with
               | some n => { t with Name := n }
               | none => t) with e | ⟨db1, t2⟩ <;>
            simp [tenantUpdate, hv, hone, hup]

theorem tenantDelete_oracle_indep (db : DB) (o : Oracles) (x y : Bool)
    (path : PathID) (actor : String) :
    (tenantDelete db { o with msgOk := x, publishOk := y } path actor).resp
      = (tenantDelete db o path actor).resp
    ∧ (tenantDelete db { o with msgOk := x, publishOk := y } path actor).db
      = (tenantDelete db o path actor).db := by
  cases path with
  | malformed => exact ⟨rfl, rfl⟩
  | absent => exact ⟨rfl, rfl⟩
  | present id =>
    rcases hone : db.queryOne o.queryFail id with e | t
    · cases e <;> simp [tenantDelete, hone]
    · rcases hdel : db.softDeleteRow o.deleteFail t with e | db1 <;>
        simp [tenantDelete, hone, hdel]

/-- C1: for create, update and delete, an event reaches the Event
Publisher only when the persistence operation succeeded and the success
response is returned (any persistence failure short-circuits with nothing
published); and the rendered response and resulting store state are
independent of whether event-message construction (`msgOk`) or event
publishing (`publishOk`) succeeds — publish failure is never propagated as
a request failure. -/
theorem mutation_event_decoupling (db : DB) (o : Oracles) (x y : Bool)
    (path : PathID) (cbody : Option CreateTenantRequest)
    (ubody : Option UpdateTenantRequest) (actor : String) :
    ((tenantCreate db o path cbody actor).published ≠ [] →
      ∃ v, (tenantCreate db o path cbody actor).resp = .createdR v)
    ∧ ((tenantUpdate db o path ubody actor).published ≠ [] →
      ∃ v, (tenantUpdate db o path ubody actor).resp = .getR v)
    ∧ ((tenantDelete db o path actor).published ≠ [] →
      (tenantDelete db o path actor).resp = .noContent)
    ∧ (tenantCreate db { o with msgOk := x, publishOk := y } path cbody actor).resp
        = (tenantCreate db o path cbody actor).resp
    ∧ (tenantCreate db { o with msgOk := x, publishOk := y } path cbody actor).db
        = (tenantCreate db o path cbody actor).db
    ∧ (tenantUpdate db { o with msgOk := x, publishOk := y } path ubody actor).resp
        = (tenantUpdate db o path ubody actor).resp
    ∧ (tenantUpdate db { o with msgOk := x, publishOk := y } path ubody actor).db
        = (tenantUpdate db o path ubody actor).db
    ∧ (tenantDelete db { o with msgOk := x, publishOk := y } path actor).resp
        = (tenantDelete db o path actor).resp
    ∧ (tenantDelete db { o with msgOk := x, publishOk := y } path actor).db
        = (tenantDelete db o path actor).db :=
  ⟨tenantCreate_publish_only_on_success db o path cbody actor,
   tenantUpdate_publish_only_on_success db o path ubody actor,
   tenantDelete_publish_only_on_success db o path actor,
   (tenantCreate_oracle_indep db o x y path cbody actor).1,
   (tenantCreate_oracle_indep db o x y path cbody actor).2,
   (tenantUpdate_oracle_indep db o x y path ubody actor).1,
   (tenantUpdate_oracle_indep db o x y path ubody actor).2,
   (tenantDelete_oracle_indep db o x y path actor).1,
   (tenantDelete_oracle_indep db o x y path actor).2⟩

/-- C1 witness: on the sample store a successful create publishes one
event and indeed returned 201; and flipping both event oracles to failure
(`msgOk := false`, `publishOk := false`) leaves the create response
unchanged. -/
theorem mutation_event_decoupling_witness :
    (tenantCreate sampleDB oracleOK .absent (some ⟨"east"⟩) "alice").published ≠ []
    ∧ (∃ v, (tenantCreate sampleDB oracleOK .absent (some ⟨"east"⟩) "alice").resp
        = .createdR v)
    ∧ (tenantCreate sampleDB { oracleOK with msgOk := false, publishOk := false }
        .absent (some ⟨"east"⟩) "alice").resp
      = (tenantCreate sampleDB oracleOK .absent (some ⟨"east"⟩) "alice").resp :=
  ⟨by decide,
   (mutation_event_decoupling sampleDB oracleOK false false .absent
      (some ⟨"east"⟩) none "alice").1 (by decide),
   (mutation_event_decoupling sampleDB oracleOK false false .absent
      (some ⟨"east"⟩) none "alice").2.2.2.1⟩

/-- C7 (code defect): when the soft-delete statement itself fails, the
delete handler logs and returns the raw error to the framework instead of
the v1 internal-server-error response — unlike every other
persistence-failure branch (create, list, get, update, and delete's own
lookup), which all render the generic 500 response. -/
theorem tenantDelete_raw_error_on_delete_failure :
    (tenantDelete sampleDB ⟨false, false, false, true, true, true⟩
        (.present "tnntn-0") "alice").resp = .rawError .unexpected
    ∧ (tenantDelete sampleDB ⟨false, false, false, true, true, true⟩
        (.present "tnntn-0") "alice").resp ≠ .internalError
    ∧ (tenantCreate sampleDB ⟨true, false, false, false, true, true⟩
        .absent (some ⟨"x"⟩) "alice").resp = .internalError
    ∧ (tenantList sampleDB ⟨false, true, false, false, true, true⟩
        .absent ⟨10, 0⟩).resp = .internalError
    ∧ (tenantGet sampleDB ⟨false, true, false, false, true, true⟩
        (.present "tnntn-0")).resp = .internalError
    ∧ (tenantUpdate sampleDB ⟨false, false, true, false, true, true⟩
        (.present "tnntn-0") (some ⟨some "y"⟩) "alice").resp = .internalError
    ∧ (tenantDelete sampleDB ⟨false, true, false, false, true, true⟩
        (.present "tnntn-0") "alice").resp = .internalError := by
  decide
